import Mathlib

/-!
Verification of the `go-micro-api` command bootstrap (`cmd/cmd.go`,
`cmd/cors.go`, `cmd/options.go`).

The embedding is shallow: Go maps from strings to factory functions become
association lists from strings to factory identities; `log.Fatalf` (which
terminates the process) becomes the `Except.error` branch of a fallible
computation; the mutable `http.ResponseWriter` becomes explicit state
passing of a response record; the signal-driven lifecycle of `Action`
becomes a function of the server's start/stop behaviour and the list of
signals delivered to the process, returning the outcome together with the
trace of lifecycle events.
-/

namespace GoMicroApi

/-- Identity of a router factory.  The named constructors are the concrete
`NewRouter` functions imported in `cmd.go`; `custom` stands for any factory
an embedding application registers itself. -/
inductive RouterFactory where
  | registryNewRouter
  | staticNewRouter
  | custom (tag : Nat)
  deriving DecidableEq, Repr

/-- Identity of a resolver factory (`NewResolver` functions in `cmd.go`). -/
inductive ResolverFactory where
  | grpcNewResolver
  | hostNewResolver
  | pathNewResolver
  | vpathNewResolver
  | custom (tag : Nat)
  deriving DecidableEq, Repr

/-- Identity of a handler factory (`NewHandler` functions in `cmd.go`). -/
inductive HandlerFactory where
  | apiNewHandler
  | eventNewHandler
  | httpNewHandler
  | rpcNewHandler
  | webNewHandler
  | custom (tag : Nat)
  deriving DecidableEq, Repr

/-- `DefaultRouters` of `cmd.go`: map from router kind name to factory. -/
def DefaultRouters : List (String × RouterFactory) :=
  [("registry", RouterFactory.registryNewRouter),
   ("static", RouterFactory.staticNewRouter)]

/-- `DefaultResolvers` of `cmd.go`. -/
def DefaultResolvers : List (String × ResolverFactory) :=
  [("grpc", ResolverFactory.grpcNewResolver),
   ("host", ResolverFactory.hostNewResolver),
   ("path", ResolverFactory.pathNewResolver),
   ("vpath", ResolverFactory.vpathNewResolver)]

/-- `DefaultHandlers` of `cmd.go`. -/
def DefaultHandlers : List (String × HandlerFactory) :=
  [("api", HandlerFactory.apiNewHandler),
   ("event", HandlerFactory.eventNewHandler),
   ("http", HandlerFactory.httpNewHandler),
   ("rpc", HandlerFactory.rpcNewHandler),
   ("web", HandlerFactory.webNewHandler)]

/-- The registry part of `Options` (`cmd/options.go`): the three string-keyed
factory mappings consulted by `Before`.  The cosmetic fields (name,
description, version) do not influence assembly and are kept for fidelity. -/
structure Options where
  name : String
  description : String
  version : String
  routers : List (String × RouterFactory)
  resolvers : List (String × ResolverFactory)
  handlers : List (String × HandlerFactory)
  deriving DecidableEq, Repr

/-- The flag values `Before` reads from the cli context via `ctx.String`:
`server_address`, `namespace`, `router`, `resolver`, `handler`. -/
structure Context where
  server_address : String
  namespaceArg : String
  router : String
  resolver : String
  handler : String
  deriving DecidableEq, Repr

/-- The options accumulated in `resolverOpts` before resolver construction:
`resolver.WithNamespace(resolver.StaticNamespace(arg))` and
`resolver.WithHandler(arg)`. -/
inductive ResolverOpt where
  | withNamespace (ns : String)
  | withHandler (h : String)
  deriving DecidableEq, Repr

/-- A constructed resolver: which factory was invoked, with which options. -/
structure ResolverInstance where
  factory : ResolverFactory
  opts : List ResolverOpt
  deriving DecidableEq, Repr

/-- Router options: `router.WithResolver(...)` carrying the constructed
resolver. -/
inductive RouterOpt where
  | withResolver (r : ResolverInstance)
  deriving DecidableEq, Repr

/-- A constructed router. -/
structure RouterInstance where
  factory : RouterFactory
  opts : List RouterOpt
  deriving DecidableEq, Repr

/-- Handler options: `handler.WithRouter(...)` carrying the constructed
router. -/
inductive HandlerOpt where
  | withRouter (r : RouterInstance)
  deriving DecidableEq, Repr

/-- A constructed handler. -/
structure HandlerInstance where
  factory : HandlerFactory
  opts : List HandlerOpt
  deriving DecidableEq, Repr

/-- The server built by `newServer(address)` with
`srv.Handle("/", CorsMiddleware(hdlr))`: the bound address and the handler
registered (wrapped in the CORS middleware) at the root path. -/
structure Server where
  address : String
  corsWrappedRoot : HandlerInstance
  deriving DecidableEq, Repr

/-- The `log.Fatalf` exits in `Before`: each names the axis (by its
constructor, matching the format strings of `cmd.go`) and carries the
unknown kind value. -/
inductive Fatal where
  | routerNotFound (name : String)
  | handlerNotFound (name : String)
  | resolverNotFound (name : String)
  deriving DecidableEq, Repr

/-- Everything `Before` constructs on success. -/
structure BeforeResult where
  resolverInst : ResolverInstance
  routerInst : RouterInstance
  handlerInst : HandlerInstance
  server : Server
  deriving DecidableEq, Repr

/-- The per-axis resolution step of `Before`: if the flag value is non-empty,
look it up in the registry mapping and fail fatally on a miss; otherwise keep
the built-in default factory. -/
def resolveAxis {α : Type} (m : List (String × α)) (arg : String) (deflt : α)
    (fatal : String → Fatal) : Except Fatal α :=
  if arg.length > 0 then
    match m.lookup arg with
    | some f => Except.ok f
    | none => Except.error (fatal arg)
  else
    Except.ok deflt

/-- `(c *cmd) Before(ctx *cli.Context)` of `cmd.go`.  Mirrors the source
order: address, namespace option, router axis, handler axis (whose flag value
is first appended to the resolver options as `resolver.WithHandler`), resolver
axis, then construction of resolver, router, handler and server.  A
`log.Fatalf` call is the `Except.error` branch: the process terminates there,
before any construction below runs. -/
def Before (opts : Options) (ctx : Context) : Except Fatal BeforeResult :=
  let address := if ctx.server_address.length > 0 then ctx.server_address else ":8080"
  let resolverOpts : List ResolverOpt :=
    if ctx.namespaceArg.length > 0 then [ResolverOpt.withNamespace ctx.namespaceArg] else []
  match resolveAxis opts.routers ctx.router RouterFactory.registryNewRouter Fatal.routerNotFound with
  | Except.error e => Except.error e
  | Except.ok newRouter =>
    let resolverOpts :=
      if ctx.handler.length > 0 then resolverOpts ++ [ResolverOpt.withHandler ctx.handler]
      else resolverOpts
    match resolveAxis opts.handlers ctx.handler HandlerFactory.rpcNewHandler Fatal.handlerNotFound with
    | Except.error e => Except.error e
    | Except.ok newHandler =>
      match resolveAxis opts.resolvers ctx.resolver ResolverFactory.vpathNewResolver Fatal.resolverNotFound with
      | Except.error e => Except.error e
      | Except.ok newResolver =>
        let resolverInst : ResolverInstance := ⟨newResolver, resolverOpts⟩
        let routerInst : RouterInstance := ⟨newRouter, [RouterOpt.withResolver resolverInst]⟩
        let handlerInst : HandlerInstance := ⟨newHandler, [HandlerOpt.withRouter routerInst]⟩
        Except.ok ⟨resolverInst, routerInst, handlerInst, ⟨address, handlerInst⟩⟩

/-- The `Options` record produced by `newCmd()` with no user options: the
three default registries and the default description. -/
def newCmdOptions : Options :=
  { name := "", description := "a go-micro-api service", version := "",
    routers := DefaultRouters, resolvers := DefaultResolvers, handlers := DefaultHandlers }

/-! ### CORS middleware (`cmd/cors.go`) -/

/-- The part of an `http.Request` the middleware inspects. -/
structure Request where
  method : String
  target : String
  deriving DecidableEq, Repr

/-- Explicit state of an `http.ResponseWriter`: the header map (as an
association list with `Set` replace-semantics), the status code once
written, and the body chunks. -/
structure ResponseWriter where
  headers : List (String × String)
  status : Option Nat
  body : List String
  deriving DecidableEq, Repr

/-- `writer.Header().Set(k, v)`: replace any existing entries for `k`. -/
def headerSet (w : ResponseWriter) (k v : String) : ResponseWriter :=
  { w with headers := w.headers.filter (fun p => p.1 != k) ++ [(k, v)] }

/-- An `http.Handler`'s `ServeHTTP`, as a state transformer on the writer. -/
def Handler : Type := Request → ResponseWriter → ResponseWriter

/-- `CorsMiddleware` of `cmd/cors.go`: set the five CORS headers; for an
`OPTIONS` request write status 200 and return without calling the wrapped
handler; otherwise delegate to the wrapped handler. -/
def CorsMiddleware (handler : Handler) : Handler := fun request writer =>
  let writer := headerSet writer "Access-Control-Allow-Origin" "*"
  let writer := headerSet writer "Access-Control-Allow-Headers"
    "Content-Type,AccessToken,X-CSRF-Token,Authorization,Token,X-Token,X-User-Id"
  let writer := headerSet writer "Access-Control-Allow-Methods" "POST,GET,OPTIONS,DELETE,PUT"
  let writer := headerSet writer "Access-Control-Expose-Headers"
    "Content-Length,Access-Control-Allow-Origin,Access-Control-Allow-Headers,Content-Type"
  let writer := headerSet writer "Access-Control-Allow-Credentials" "true"
  if request.method == "OPTIONS" then { writer with status := some 200 }
  else handler request writer

/-- The five header writes of `CorsMiddleware`, factored out for stating
properties; definitionally the prefix of `CorsMiddleware`. -/
def setCorsHeaders (w : ResponseWriter) : ResponseWriter :=
  headerSet (headerSet (headerSet (headerSet (headerSet w
    "Access-Control-Allow-Origin" "*")
    "Access-Control-Allow-Headers"
    "Content-Type,AccessToken,X-CSRF-Token,Authorization,Token,X-Token,X-User-Id")
    "Access-Control-Allow-Methods" "POST,GET,OPTIONS,DELETE,PUT")
    "Access-Control-Expose-Headers"
    "Content-Length,Access-Control-Allow-Origin,Access-Control-Allow-Headers,Content-Type")
    "Access-Control-Allow-Credentials" "true"

/-- The five CORS headers, with their exact values, are present in the
writer's header map. -/
def corsHeadersSet (w : ResponseWriter) : Prop :=
  w.headers.lookup "Access-Control-Allow-Origin" = some "*"
  ∧ w.headers.lookup "Access-Control-Allow-Headers" =
      some "Content-Type,AccessToken,X-CSRF-Token,Authorization,Token,X-Token,X-User-Id"
  ∧ w.headers.lookup "Access-Control-Allow-Methods" = some "POST,GET,OPTIONS,DELETE,PUT"
  ∧ w.headers.lookup "Access-Control-Expose-Headers" =
      some "Content-Length,Access-Control-Allow-Origin,Access-Control-Allow-Headers,Content-Type"
  ∧ w.headers.lookup "Access-Control-Allow-Credentials" = some "true"

instance (w : ResponseWriter) : Decidable (corsHeadersSet w) := by
  unfold corsHeadersSet; infer_instance

/-! ### Lifecycle (`(c *cmd) Action`) -/

/-- A delivered OS signal; `other` covers every signal that is neither
`SIGINT` nor `SIGTERM`. -/
inductive Sig where
  | sigint
  | sigterm
  | other (n : Nat)
  deriving DecidableEq, Repr

/-- `signal.Notify(quit, syscall.SIGINT, syscall.SIGTERM)` relays exactly
these two signals to the channel. -/
def termSignal : Sig → Bool
  | Sig.sigint => true
  | Sig.sigterm => true
  | Sig.other _ => false

/-- Abstract behaviour of the assembled server: what `Start()` and `Stop()`
return when invoked. -/
structure ServerBehavior where
  startErr : Option String
  stopErr : Option String
  deriving DecidableEq, Repr

/-- Observable lifecycle events of one run of `Action`. -/
inductive Event where
  | startCalled
  | waitEntered
  | waitReturned (s : Sig)
  | stopCalled
  deriving DecidableEq, Repr

/-- Result of a run of `Action`: either still blocked in `<-quit` (no
qualifying signal was ever delivered), or returned with `Action`'s error
value. -/
inductive Outcome where
  | blocked
  | finished (err : Option String)
  deriving DecidableEq, Repr

/-- The first `SIGINT`/`SIGTERM` among the signals delivered to the process;
`signal.Notify` filters all others away from the channel. -/
def firstTermSig : List Sig → Option Sig
  | [] => none
  | s :: rest => if termSignal s then some s else firstTermSig rest

/-- `(c *cmd) Action(ctx *cli.Context)` of `cmd.go`, as a function of the
server behaviour and the signals delivered to the process.  If `Start()`
errs, the error is returned at once — the wait is never entered and `Stop()`
is never called.  Otherwise the run blocks in `<-quit` until the first
`SIGINT`/`SIGTERM`, then calls `Stop()` exactly once and returns its error
(or `nil`).  The returned trace records the events in order. -/
def Action (srv : ServerBehavior) (signals : List Sig) : Outcome × List Event :=
  match srv.startErr with
  | some e => (Outcome.finished (some e), [Event.startCalled])
  | none =>
    match firstTermSig signals with
    | none => (Outcome.blocked, [Event.startCalled, Event.waitEntered])
    | some s =>
      (Outcome.finished srv.stopErr,
       [Event.startCalled, Event.waitEntered, Event.waitReturned s, Event.stopCalled])

/-! ### Concrete inputs used by witnesses -/

/-- A stub wrapped handler that records its invocation in the body. -/
def stubHandler : Handler := fun _ w => { w with body := w.body ++ ["wrapped handler ran"] }

/-- A fresh response writer. -/
def emptyWriter : ResponseWriter := ⟨[], none, []⟩

/-- The flag values when every flag keeps its declared default
(`DefaultFlags` of `cmd.go`). -/
def ctxDefault : Context :=
  { server_address := ":8080", namespaceArg := "go.micro",
    router := "registry", resolver := "vpath", handler := "rpc" }

/-- All five flag values empty (the embedding application passed empty
strings): every axis must fall back to its built-in default factory. -/
def ctxEmptyAll : Context :=
  { server_address := "", namespaceArg := "", router := "", resolver := "", handler := "" }

/-- Registries with no entries at all: used to show the empty-kind fallback
never consults the registry. -/
def emptyRegistryOptions : Options :=
  { name := "", description := "a go-micro-api service", version := "",
    routers := [], resolvers := [], handlers := [] }

/-- Default flags except an unknown router kind. -/
def ctxUnknownRouter : Context := { ctxDefault with router := "doesnotexist" }

/-- Default flags except `--handler=api --namespace=foo` (the spec's
cross-axis coupling example). -/
def ctxApiFoo : Context := { ctxDefault with handler := "api", namespaceArg := "foo" }

/-- Default flags except a `server_address` that is not a valid listen
address. -/
def ctxMalformedAddress : Context :=
  { ctxDefault with server_address := "this is not a listen address" }

/-- The fatal diagnostic `e` names an axis and kind value that are indeed
configured in `ctx`, non-empty, and absent from the corresponding registry
mapping of `opts`. -/
def diagnosesMissingKind (opts : Options) (ctx : Context) : Fatal → Prop
  | Fatal.routerNotFound s => s = ctx.router ∧ s ≠ "" ∧ opts.routers.lookup s = none
  | Fatal.handlerNotFound s => s = ctx.handler ∧ s ≠ "" ∧ opts.handlers.lookup s = none
  | Fatal.resolverNotFound s => s = ctx.resolver ∧ s ≠ "" ∧ opts.resolvers.lookup s = none

/-- The record `Before` builds once all three factories are resolved:
the tail of `Before` (construction of resolver, router, handler and server)
as a function of the chosen factories. -/
def mkBeforeResult (ctx : Context) (rf : RouterFactory) (hf : HandlerFactory)
    (sf : ResolverFactory) : BeforeResult :=
  let address := if ctx.server_address.length > 0 then ctx.server_address else ":8080"
  let resolverOpts : List ResolverOpt :=
    if ctx.namespaceArg.length > 0 then [ResolverOpt.withNamespace ctx.namespaceArg] else []
  let resolverOpts :=
    if ctx.handler.length > 0 then resolverOpts ++ [ResolverOpt.withHandler ctx.handler]
    else resolverOpts
  let resolverInst : ResolverInstance := ⟨sf, resolverOpts⟩
  let routerInst : RouterInstance := ⟨rf, [RouterOpt.withResolver resolverInst]⟩
  let handlerInst : HandlerInstance := ⟨hf, [HandlerOpt.withRouter routerInst]⟩
  ⟨resolverInst, routerInst, handlerInst, ⟨address, handlerInst⟩⟩

/-! ### Helper lemmas -/

theorem string_ne_empty_iff (s : String) : s ≠ "" ↔ 0 < s.length := by
  cases s with
  | mk l =>
    cases l with
    | nil => simp
    | cons c cs =>
      constructor
      · intro _
        simp [String.length]
      · intro _ h
        exact List.noConfusion (congrArg String.data h)

theorem lookup_filter_append_self (l : List (String × String)) (k v : String) :
    (l.filter (fun p => p.1 != k) ++ [(k, v)]).lookup k = some v := by
  induction l with
  | nil => simp [List.lookup]
  | cons p t ih =>
    obtain ⟨a, b⟩ := p
    by_cases h : a = k
    · simpa [List.filter_cons, h] using ih
    · simpa [List.filter_cons, h, List.lookup_cons, beq_false_of_ne (Ne.symm h)] using ih

theorem lookup_filter_append_ne (l : List (String × String)) (k v k' : String)
    (h : k' ≠ k) :
    (l.filter (fun p => p.1 != k) ++ [(k, v)]).lookup k' = l.lookup k' := by
  induction l with
  | nil => simp [List.lookup, beq_false_of_ne h]
  | cons p t ih =>
    obtain ⟨a, b⟩ := p
    by_cases hp : a = k
    · simpa [List.filter_cons, hp, List.lookup_cons, beq_false_of_ne h] using ih
    · by_cases hk : k' = a
      · simp [List.filter_cons, hp, List.lookup_cons, hk]
      · simpa [List.filter_cons, hp, List.lookup_cons, beq_false_of_ne hk] using ih

theorem corsHeadersSet_setCorsHeaders (w : ResponseWriter) :
    corsHeadersSet (setCorsHeaders w) := by
  unfold corsHeadersSet setCorsHeaders headerSet
  dsimp only
  refine ⟨?_, ?_, ?_, ?_, ?_⟩
  · rw [lookup_filter_append_ne _ _ _ _ (by decide),
      lookup_filter_append_ne _ _ _ _ (by decide),
      lookup_filter_append_ne _ _ _ _ (by decide),
      lookup_filter_append_ne _ _ _ _ (by decide),
      lookup_filter_append_self]
  · rw [lookup_filter_append_ne _ _ _ _ (by decide),
      lookup_filter_append_ne _ _ _ _ (by decide),
      lookup_filter_append_ne _ _ _ _ (by decide),
      lookup_filter_append_self]
  · rw [lookup_filter_append_ne _ _ _ _ (by decide),
      lookup_filter_append_ne _ _ _ _ (by decide),
      lookup_filter_append_self]
  · rw [lookup_filter_append_ne _ _ _ _ (by decide),
      lookup_filter_append_self]
  · rw [lookup_filter_append_self]

theorem corsMiddleware_unfold (handler : Handler) (request : Request)
    (writer : ResponseWriter) :
    CorsMiddleware handler request writer =
      if request.method == "OPTIONS" then { setCorsHeaders writer with status := some 200 }
      else handler request (setCorsHeaders writer) := rfl

theorem resolveAxis_empty {α : Type} (m : List (String × α)) (d : α)
    (f : String → Fatal) : resolveAxis m "" d f = Except.ok d := rfl

theorem resolveAxis_miss {α : Type} (m : List (String × α)) (arg : String) (d : α)
    (f : String → Fatal) (h1 : arg ≠ "") (h2 : m.lookup arg = none) :
    resolveAxis m arg d f = Except.error (f arg) := by
  unfold resolveAxis
  rw [if_pos ((string_ne_empty_iff arg).mp h1), h2]

theorem resolveAxis_hit {α : Type} (m : List (String × α)) (arg : String) (d : α)
    (f : String → Fatal) (x : α) (h1 : arg ≠ "") (h2 : m.lookup arg = some x) :
    resolveAxis m arg d f = Except.ok x := by
  unfold resolveAxis
  rw [if_pos ((string_ne_empty_iff arg).mp h1), h2]

theorem Before_ok_of_axes (opts : Options) (ctx : Context) (rf : RouterFactory)
    (hf : HandlerFactory) (sf : ResolverFactory)
    (hra : resolveAxis opts.routers ctx.router RouterFactory.registryNewRouter
      Fatal.routerNotFound = Except.ok rf)
    (hha : resolveAxis opts.handlers ctx.handler HandlerFactory.rpcNewHandler
      Fatal.handlerNotFound = Except.ok hf)
    (hsa : resolveAxis opts.resolvers ctx.resolver ResolverFactory.vpathNewResolver
      Fatal.resolverNotFound = Except.ok sf) :
    Before opts ctx = Except.ok (mkBeforeResult ctx rf hf sf) := by
  unfold Before mkBeforeResult
  rw [hra, hha, hsa]

theorem Before_ok_inversion (opts : Options) (ctx : Context) (r : BeforeResult)
    (hok : Before opts ctx = Except.ok r) :
    ∃ (rf : RouterFactory) (hf : HandlerFactory) (sf : ResolverFactory),
      resolveAxis opts.routers ctx.router RouterFactory.registryNewRouter
        Fatal.routerNotFound = Except.ok rf
      ∧ resolveAxis opts.handlers ctx.handler HandlerFactory.rpcNewHandler
        Fatal.handlerNotFound = Except.ok hf
      ∧ resolveAxis opts.resolvers ctx.resolver ResolverFactory.vpathNewResolver
        Fatal.resolverNotFound = Except.ok sf
      ∧ r = mkBeforeResult ctx rf hf sf := by
  unfold Before at hok
  cases hra : resolveAxis opts.routers ctx.router RouterFactory.registryNewRouter
      Fatal.routerNotFound with
  | error e => rw [hra] at hok; simp at hok
  | ok rf =>
    rw [hra] at hok
    cases hha : resolveAxis opts.handlers ctx.handler HandlerFactory.rpcNewHandler
        Fatal.handlerNotFound with
    | error e => rw [hha] at hok; simp at hok
    | ok hf =>
      rw [hha] at hok
      cases hsa : resolveAxis opts.resolvers ctx.resolver ResolverFactory.vpathNewResolver
          Fatal.resolverNotFound with
      | error e => rw [hsa] at hok; simp at hok
      | ok sf =>
        rw [hsa] at hok
        simp only [Except.ok.injEq] at hok
        exact ⟨rf, hf, sf, rfl, rfl, rfl, hok.symm⟩

theorem firstTermSig_isTerm (signals : List Sig) (s : Sig)
    (h : firstTermSig signals = some s) : termSignal s = true := by
  induction signals with
  | nil => simp [firstTermSig] at h
  | cons a t ih =>
    unfold firstTermSig at h
    by_cases ha : termSignal a = true
    · rw [if_pos ha] at h
      cases h
      exact ha
    · rw [if_neg ha] at h
      exact ih h

theorem mkBeforeResult_address (ctx : Context) (rf : RouterFactory)
    (hf : HandlerFactory) (sf : ResolverFactory) :
    (mkBeforeResult ctx rf hf sf).server.address =
      if ctx.server_address = "" then ":8080" else ctx.server_address := by
  by_cases he : ctx.server_address = ""
  · rw [if_pos he]
    simp only [mkBeforeResult]
    rw [he]
    rfl
  · rw [if_neg he]
    simp only [mkBeforeResult]
    rw [if_pos ((string_ne_empty_iff _).mp he)]

/-! ### Claims about the CORS middleware -/

/-- C4: for every HTTP request with method `OPTIONS` sent to the CORS-wrapped
entry point, the response has all five CORS headers set (with their exact
values) and status 200, and the wrapped handler is never invoked: the result
equals the headers-set writer with status 200 — an expression independent of
the wrapped handler — and coincides for every wrapped handler. -/
theorem corsMiddleware_options_short_circuit (handler : Handler) (request : Request)
    (writer : ResponseWriter) (hm : request.method = "OPTIONS") :
    CorsMiddleware handler request writer = { setCorsHeaders writer with status := some 200 }
    ∧ corsHeadersSet (CorsMiddleware handler request writer)
    ∧ (CorsMiddleware handler request writer).status = some 200
    ∧ ∀ other : Handler,
        CorsMiddleware other request writer = CorsMiddleware handler request writer := by
  have hb : (request.method == "OPTIONS") = true := by rw [hm]; rfl
  have he : CorsMiddleware handler request writer =
      { setCorsHeaders writer with status := some 200 } := by
    rw [corsMiddleware_unfold, hb]
    simp
  refine ⟨he, ?_, ?_, ?_⟩
  · rw [he]
    exact corsHeadersSet_setCorsHeaders writer
  · rw [he]
  · intro other
    rw [he, corsMiddleware_unfold, hb]
    simp

/-- Witness for C4: a concrete `OPTIONS` request against the stub handler. -/
theorem corsMiddleware_options_short_circuit_witness :
    (Request.mk "OPTIONS" "/api/foo").method = "OPTIONS"
    ∧ (CorsMiddleware stubHandler ⟨"OPTIONS", "/api/foo"⟩ emptyWriter =
        { setCorsHeaders emptyWriter with status := some 200 }
      ∧ corsHeadersSet (CorsMiddleware stubHandler ⟨"OPTIONS", "/api/foo"⟩ emptyWriter)
      ∧ (CorsMiddleware stubHandler ⟨"OPTIONS", "/api/foo"⟩ emptyWriter).status = some 200
      ∧ ∀ other : Handler,
          CorsMiddleware other ⟨"OPTIONS", "/api/foo"⟩ emptyWriter =
            CorsMiddleware stubHandler ⟨"OPTIONS", "/api/foo"⟩ emptyWriter) :=
  ⟨rfl, corsMiddleware_options_short_circuit stubHandler ⟨"OPTIONS", "/api/foo"⟩ emptyWriter rfl⟩

/-- C5: for every request whose method is not `OPTIONS`, the middleware sets
the five CORS headers and then delegates: the response is exactly one
invocation of the wrapped handler on the original request, applied to the
writer already carrying the five headers (so the response carries them in
addition to whatever the wrapped handler produces). -/
theorem corsMiddleware_other_method_delegates (handler : Handler) (request : Request)
    (writer : ResponseWriter) (hm : request.method ≠ "OPTIONS") :
    CorsMiddleware handler request writer = handler request (setCorsHeaders writer)
    ∧ corsHeadersSet (setCorsHeaders writer) := by
  have hb : (request.method == "OPTIONS") = false := beq_false_of_ne hm
  constructor
  · rw [corsMiddleware_unfold, hb]
    simp
  · exact corsHeadersSet_setCorsHeaders writer

/-- Witness for C5: a concrete `GET` request against the stub handler. -/
theorem corsMiddleware_other_method_delegates_witness :
    (Request.mk "GET" "/api/foo").method ≠ "OPTIONS"
    ∧ (CorsMiddleware stubHandler ⟨"GET", "/api/foo"⟩ emptyWriter =
        stubHandler ⟨"GET", "/api/foo"⟩ (setCorsHeaders emptyWriter)
      ∧ corsHeadersSet (setCorsHeaders emptyWriter)) :=
  ⟨by decide,
   corsMiddleware_other_method_delegates stubHandler ⟨"GET", "/api/foo"⟩ emptyWriter (by decide)⟩

/-! ### Claims about configuration resolution (`Before`) -/

/-- C1: whenever a router, handler or resolver kind string is non-empty and
absent from the corresponding registry mapping, `Before` fails fatally
(`log.Fatalf`, the `Except.error` branch) with a diagnostic naming the
unknown value and its axis, and no `BeforeResult` — hence no server — is
ever produced, so no socket can be bound. -/
theorem Before_unknown_kind_fatal (opts : Options) (ctx : Context)
    (hmiss : (ctx.router ≠ "" ∧ opts.routers.lookup ctx.router = none)
      ∨ (ctx.handler ≠ "" ∧ opts.handlers.lookup ctx.handler = none)
      ∨ (ctx.resolver ≠ "" ∧ opts.resolvers.lookup ctx.resolver = none)) :
    (∃ e : Fatal, Before opts ctx = Except.error e ∧ diagnosesMissingKind opts ctx e)
    ∧ ∀ r : BeforeResult, Before opts ctx ≠ Except.ok r := by
  have key : ∃ e : Fatal,
      Before opts ctx = Except.error e ∧ diagnosesMissingKind opts ctx e := by
    by_cases hr : ctx.router ≠ "" ∧ opts.routers.lookup ctx.router = none
    · refine ⟨Fatal.routerNotFound ctx.router, ?_, rfl, hr.1, hr.2⟩
      unfold Before
      rw [resolveAxis_miss _ _ _ _ hr.1 hr.2]
    · have hrok : ∃ x, resolveAxis opts.routers ctx.router RouterFactory.registryNewRouter
          Fatal.routerNotFound = Except.ok x := by
        by_cases he : ctx.router = ""
        · exact ⟨RouterFactory.registryNewRouter, by rw [he, resolveAxis_empty]⟩
        · have hn : opts.routers.lookup ctx.router ≠ none := fun hc => hr ⟨he, hc⟩
          obtain ⟨x, hx⟩ := Option.ne_none_iff_exists'.mp hn
          exact ⟨x, resolveAxis_hit _ _ _ _ x he hx⟩
      obtain ⟨rf, hrf⟩ := hrok
      by_cases hh : ctx.handler ≠ "" ∧ opts.handlers.lookup ctx.handler = none
      · refine ⟨Fatal.handlerNotFound ctx.handler, ?_, rfl, hh.1, hh.2⟩
        unfold Before
        rw [hrf, resolveAxis_miss _ _ _ _ hh.1 hh.2]
      · have hhok : ∃ x, resolveAxis opts.handlers ctx.handler HandlerFactory.rpcNewHandler
            Fatal.handlerNotFound = Except.ok x := by
          by_cases he : ctx.handler = ""
          · exact ⟨HandlerFactory.rpcNewHandler, by rw [he, resolveAxis_empty]⟩
          · have hn : opts.handlers.lookup ctx.handler ≠ none := fun hc => hh ⟨he, hc⟩
            obtain ⟨x, hx⟩ := Option.ne_none_iff_exists'.mp hn
            exact ⟨x, resolveAxis_hit _ _ _ _ x he hx⟩
        obtain ⟨hfv, hhf⟩ := hhok
        have hs : ctx.resolver ≠ "" ∧ opts.resolvers.lookup ctx.resolver = none := by
          rcases hmiss with h | h | h
          · exact absurd h hr
          · exact absurd h hh
          · exact h
        refine ⟨Fatal.resolverNotFound ctx.resolver, ?_, rfl, hs.1, hs.2⟩
        unfold Before
        rw [hrf, hhf, resolveAxis_miss _ _ _ _ hs.1 hs.2]
  refine ⟨key, ?_⟩
  intro r hok
  obtain ⟨e, he, _⟩ := key
  rw [he] at hok
  exact Except.noConfusion hok

/-- Witness for C1: `--router=doesnotexist` against the default registries
fails with the router diagnostic. -/
theorem Before_unknown_kind_fatal_witness :
    ((ctxUnknownRouter.router ≠ ""
        ∧ newCmdOptions.routers.lookup ctxUnknownRouter.router = none)
      ∨ (ctxUnknownRouter.handler ≠ ""
        ∧ newCmdOptions.handlers.lookup ctxUnknownRouter.handler = none)
      ∨ (ctxUnknownRouter.resolver ≠ ""
        ∧ newCmdOptions.resolvers.lookup ctxUnknownRouter.resolver = none))
    ∧ ((∃ e : Fatal, Before newCmdOptions ctxUnknownRouter = Except.error e
          ∧ diagnosesMissingKind newCmdOptions ctxUnknownRouter e)
      ∧ ∀ r : BeforeResult, Before newCmdOptions ctxUnknownRouter ≠ Except.ok r) :=
  ⟨by decide, Before_unknown_kind_fatal newCmdOptions ctxUnknownRouter (by decide)⟩

/-- C2: for every configuration whose router, resolver or handler kind string
is empty, the layer actually constructed by `Before` uses the fixed built-in
default factory for that axis (`registry.NewRouter`, `vpath.NewResolver`,
`rpc.NewHandler`), for arbitrary registry contents — the registry mapping is
not consulted. -/
theorem Before_empty_kind_uses_default (opts : Options) (ctx : Context) (r : BeforeResult)
    (hok : Before opts ctx = Except.ok r) :
    (ctx.router = "" → r.routerInst.factory = RouterFactory.registryNewRouter)
    ∧ (ctx.resolver = "" → r.resolverInst.factory = ResolverFactory.vpathNewResolver)
    ∧ (ctx.handler = "" → r.handlerInst.factory = HandlerFactory.rpcNewHandler) := by
  obtain ⟨rf, hf, sf, hra, hha, hsa, hr⟩ := Before_ok_inversion opts ctx r hok
  subst hr
  refine ⟨?_, ?_, ?_⟩
  · intro he
    rw [he, resolveAxis_empty] at hra
    simp only [Except.ok.injEq] at hra
    subst hra
    rfl
  · intro he
    rw [he, resolveAxis_empty] at hsa
    simp only [Except.ok.injEq] at hsa
    subst hsa
    rfl
  · intro he
    rw [he, resolveAxis_empty] at hha
    simp only [Except.ok.injEq] at hha
    subst hha
    rfl

/-- Witness for C2: all kind strings empty, registries entirely empty — every
layer still gets its built-in default factory. -/
theorem Before_empty_kind_uses_default_witness :
    Before emptyRegistryOptions ctxEmptyAll =
      Except.ok (mkBeforeResult ctxEmptyAll RouterFactory.registryNewRouter
        HandlerFactory.rpcNewHandler ResolverFactory.vpathNewResolver)
    ∧ ((ctxEmptyAll.router = "" →
        (mkBeforeResult ctxEmptyAll RouterFactory.registryNewRouter
          HandlerFactory.rpcNewHandler ResolverFactory.vpathNewResolver).routerInst.factory =
          RouterFactory.registryNewRouter)
      ∧ (ctxEmptyAll.resolver = "" →
        (mkBeforeResult ctxEmptyAll RouterFactory.registryNewRouter
          HandlerFactory.rpcNewHandler ResolverFactory.vpathNewResolver).resolverInst.factory =
          ResolverFactory.vpathNewResolver)
      ∧ (ctxEmptyAll.handler = "" →
        (mkBeforeResult ctxEmptyAll RouterFactory.registryNewRouter
          HandlerFactory.rpcNewHandler ResolverFactory.vpathNewResolver).handlerInst.factory =
          HandlerFactory.rpcNewHandler)) :=
  ⟨rfl,
   Before_empty_kind_uses_default emptyRegistryOptions ctxEmptyAll
     (mkBeforeResult ctxEmptyAll RouterFactory.registryNewRouter
       HandlerFactory.rpcNewHandler ResolverFactory.vpathNewResolver) rfl⟩

/-- C3: with a non-empty handler kind and a non-empty namespace, the
constructed resolver's option list is exactly the namespace option followed
by the handler-protocol tag — in particular it contains both, and the
handler flag has been processed (its tag appended) before the resolver is
constructed. -/
theorem Before_threads_handler_and_namespace (opts : Options) (ctx : Context)
    (r : BeforeResult) (hh : ctx.handler ≠ "") (hn : ctx.namespaceArg ≠ "")
    (hok : Before opts ctx = Except.ok r) :
    r.resolverInst.opts =
      [ResolverOpt.withNamespace ctx.namespaceArg, ResolverOpt.withHandler ctx.handler]
    ∧ ResolverOpt.withHandler ctx.handler ∈ r.resolverInst.opts
    ∧ ResolverOpt.withNamespace ctx.namespaceArg ∈ r.resolverInst.opts := by
  obtain ⟨rf, hf, sf, _, _, _, hr⟩ := Before_ok_inversion opts ctx r hok
  subst hr
  have h1 : 0 < ctx.namespaceArg.length := (string_ne_empty_iff _).mp hn
  have h2 : 0 < ctx.handler.length := (string_ne_empty_iff _).mp hh
  have he : (mkBeforeResult ctx rf hf sf).resolverInst.opts =
      [ResolverOpt.withNamespace ctx.namespaceArg, ResolverOpt.withHandler ctx.handler] := by
    simp only [mkBeforeResult]
    rw [if_pos h2, if_pos h1]
    rfl
  refine ⟨he, ?_, ?_⟩
  · rw [he]
    simp
  · rw [he]
    simp

/-- Witness for C3: `--handler=api --namespace=foo` (the spec's example) —
the constructed resolver carries the tag `"api"` and namespace `"foo"`. -/
theorem Before_threads_handler_and_namespace_witness :
    ctxApiFoo.handler ≠ "" ∧ ctxApiFoo.namespaceArg ≠ ""
    ∧ Before newCmdOptions ctxApiFoo =
        Except.ok (mkBeforeResult ctxApiFoo RouterFactory.registryNewRouter
          HandlerFactory.apiNewHandler ResolverFactory.vpathNewResolver)
    ∧ ((mkBeforeResult ctxApiFoo RouterFactory.registryNewRouter
          HandlerFactory.apiNewHandler ResolverFactory.vpathNewResolver).resolverInst.opts =
        [ResolverOpt.withNamespace ctxApiFoo.namespaceArg,
         ResolverOpt.withHandler ctxApiFoo.handler]
      ∧ ResolverOpt.withHandler ctxApiFoo.handler ∈
          (mkBeforeResult ctxApiFoo RouterFactory.registryNewRouter
            HandlerFactory.apiNewHandler ResolverFactory.vpathNewResolver).resolverInst.opts
      ∧ ResolverOpt.withNamespace ctxApiFoo.namespaceArg ∈
          (mkBeforeResult ctxApiFoo RouterFactory.registryNewRouter
            HandlerFactory.apiNewHandler ResolverFactory.vpathNewResolver).resolverInst.opts) :=
  ⟨by decide, by decide, rfl,
   Before_threads_handler_and_namespace newCmdOptions ctxApiFoo
     (mkBeforeResult ctxApiFoo RouterFactory.registryNewRouter
       HandlerFactory.apiNewHandler ResolverFactory.vpathNewResolver)
     (by decide) (by decide) rfl⟩

/-! ### Claims about the lifecycle (`Action`) -/

/-- C6: when the server's `Start()` returns an error, `Action` returns that
error unchanged at once: the blocking wait on the signal channel is never
entered and `Stop()` is never invoked, for any signals later delivered. -/
theorem Action_start_error_short_circuits (srv : ServerBehavior) (signals : List Sig)
    (e : String) (h : srv.startErr = some e) :
    Action srv signals = (Outcome.finished (some e), [Event.startCalled])
    ∧ Event.waitEntered ∉ (Action srv signals).2
    ∧ Event.stopCalled ∉ (Action srv signals).2 := by
  have ha : Action srv signals = (Outcome.finished (some e), [Event.startCalled]) := by
    unfold Action
    rw [h]
  refine ⟨ha, ?_, ?_⟩ <;> rw [ha] <;> simp

/-- Witness for C6: a bind failure with a `SIGTERM` later delivered. -/
theorem Action_start_error_short_circuits_witness :
    (ServerBehavior.mk (some "listen tcp :8080: bind: address already in use") none).startErr
      = some "listen tcp :8080: bind: address already in use"
    ∧ (Action ⟨some "listen tcp :8080: bind: address already in use", none⟩ [Sig.sigterm] =
        (Outcome.finished (some "listen tcp :8080: bind: address already in use"),
         [Event.startCalled])
      ∧ Event.waitEntered ∉
          (Action ⟨some "listen tcp :8080: bind: address already in use", none⟩
            [Sig.sigterm]).2
      ∧ Event.stopCalled ∉
          (Action ⟨some "listen tcp :8080: bind: address already in use", none⟩
            [Sig.sigterm]).2) :=
  ⟨rfl,
   Action_start_error_short_circuits
     ⟨some "listen tcp :8080: bind: address already in use", none⟩ [Sig.sigterm] _ rfl⟩

/-- C7: after a successful start, `Stop()` is invoked at most once in every
run; the first delivered `SIGINT`/`SIGTERM` makes the wait return and `Stop()`
run exactly once (later signals add nothing — the run has already finished);
and when no `SIGINT`/`SIGTERM` is ever delivered the run stays blocked and
`Stop()` is never invoked, so these two signals are the only termination
triggers. -/
theorem Action_signal_stops_once (srv : ServerBehavior) (signals : List Sig)
    (h : srv.startErr = none) :
    ((Action srv signals).2.count Event.stopCalled ≤ 1)
    ∧ (∀ s : Sig, firstTermSig signals = some s →
        termSignal s = true
        ∧ Action srv signals =
            (Outcome.finished srv.stopErr,
             [Event.startCalled, Event.waitEntered, Event.waitReturned s, Event.stopCalled])
        ∧ (Action srv signals).2.count Event.stopCalled = 1)
    ∧ (firstTermSig signals = none →
        Action srv signals = (Outcome.blocked, [Event.startCalled, Event.waitEntered])
        ∧ Event.stopCalled ∉ (Action srv signals).2) := by
  cases hf : firstTermSig signals with
  | none =>
    have ha : Action srv signals = (Outcome.blocked, [Event.startCalled, Event.waitEntered]) := by
      unfold Action
      rw [h, hf]
    refine ⟨?_, ?_, ?_⟩
    · rw [ha]
      decide
    · intro s hs
      exact Option.noConfusion hs
    · intro _
      exact ⟨ha, by rw [ha]; decide⟩
  | some s0 =>
    have ha : Action srv signals =
        (Outcome.finished srv.stopErr,
         [Event.startCalled, Event.waitEntered, Event.waitReturned s0, Event.stopCalled]) := by
      unfold Action
      rw [h, hf]
    have hcount : (Action srv signals).2.count Event.stopCalled = 1 := by
      rw [ha]
      simp [List.count_cons]
    refine ⟨by rw [hcount], ?_, ?_⟩
    · intro s hs
      cases hs
      exact ⟨firstTermSig_isTerm signals s0 hf, ha, hcount⟩
    · intro hnone
      exact Option.noConfusion hnone

/-- Witness for C7: a clean start; a non-termination signal is ignored and
the first `SIGTERM` stops the run exactly once, with a later `SIGINT`
pending but never acted upon. -/
theorem Action_signal_stops_once_witness :
    (ServerBehavior.mk none none).startErr = none
    ∧ (((Action ⟨none, none⟩ [Sig.other 1, Sig.sigterm, Sig.sigint]).2.count
          Event.stopCalled ≤ 1)
      ∧ (∀ s : Sig, firstTermSig [Sig.other 1, Sig.sigterm, Sig.sigint] = some s →
          termSignal s = true
          ∧ Action ⟨none, none⟩ [Sig.other 1, Sig.sigterm, Sig.sigint] =
              (Outcome.finished (ServerBehavior.mk none none).stopErr,
               [Event.startCalled, Event.waitEntered, Event.waitReturned s, Event.stopCalled])
          ∧ (Action ⟨none, none⟩ [Sig.other 1, Sig.sigterm, Sig.sigint]).2.count
              Event.stopCalled = 1)
      ∧ (firstTermSig [Sig.other 1, Sig.sigterm, Sig.sigint] = none →
          Action ⟨none, none⟩ [Sig.other 1, Sig.sigterm, Sig.sigint] =
            (Outcome.blocked, [Event.startCalled, Event.waitEntered])
          ∧ Event.stopCalled ∉
              (Action ⟨none, none⟩ [Sig.other 1, Sig.sigterm, Sig.sigint]).2)) :=
  ⟨rfl, Action_signal_stops_once ⟨none, none⟩ [Sig.other 1, Sig.sigterm, Sig.sigint] rfl⟩

/-- C8 counterexample: with a `server_address` that is not a valid listen
address (and all other flags at their defaults), `Before` — the assembly
step — returns success, not an error: the malformed address is stored in the
constructed server unchanged.  No constructor invoked by the assembly tail of
`Before` can return an error (their Go signatures return no `error`), so a
malformed address is not detected at assembly time. -/
theorem Before_malformed_address_no_error :
    Before newCmdOptions ctxMalformedAddress =
      Except.ok (mkBeforeResult ctxMalformedAddress RouterFactory.registryNewRouter
        HandlerFactory.rpcNewHandler ResolverFactory.vpathNewResolver)
    ∧ (mkBeforeResult ctxMalformedAddress RouterFactory.registryNewRouter
        HandlerFactory.rpcNewHandler ResolverFactory.vpathNewResolver).server.address =
      "this is not a listen address" :=
  ⟨rfl, rfl⟩

/-- C8 (amended): pipeline assembly cannot encounter a construction failure —
for every configuration whose non-empty kind strings are registered, `Before`
returns success regardless of the address value, which is threaded into the
server verbatim (default `:8080` when empty); a malformed address surfaces
only when the lifecycle controller calls `Start()`, whose error `Action`
returns to its caller. -/
theorem Before_assembly_never_fails (opts : Options) (ctx : Context)
    (hr : ctx.router ≠ "" → (opts.routers.lookup ctx.router).isSome = true)
    (hh : ctx.handler ≠ "" → (opts.handlers.lookup ctx.handler).isSome = true)
    (hs : ctx.resolver ≠ "" → (opts.resolvers.lookup ctx.resolver).isSome = true) :
    ∃ r : BeforeResult, Before opts ctx = Except.ok r
      ∧ r.server.address =
          (if ctx.server_address = "" then ":8080" else ctx.server_address) := by
  have hrok : ∃ x, resolveAxis opts.routers ctx.router RouterFactory.registryNewRouter
      Fatal.routerNotFound = Except.ok x := by
    by_cases he : ctx.router = ""
    · exact ⟨RouterFactory.registryNewRouter, by rw [he, resolveAxis_empty]⟩
    · obtain ⟨x, hx⟩ := Option.isSome_iff_exists.mp (hr he)
      exact ⟨x, resolveAxis_hit _ _ _ _ x he hx⟩
  have hhok : ∃ x, resolveAxis opts.handlers ctx.handler HandlerFactory.rpcNewHandler
      Fatal.handlerNotFound = Except.ok x := by
    by_cases he : ctx.handler = ""
    · exact ⟨HandlerFactory.rpcNewHandler, by rw [he, resolveAxis_empty]⟩
    · obtain ⟨x, hx⟩ := Option.isSome_iff_exists.mp (hh he)
      exact ⟨x, resolveAxis_hit _ _ _ _ x he hx⟩
  have hsok : ∃ x, resolveAxis opts.resolvers ctx.resolver ResolverFactory.vpathNewResolver
      Fatal.resolverNotFound = Except.ok x := by
    by_cases he : ctx.resolver = ""
    · exact ⟨ResolverFactory.vpathNewResolver, by rw [he, resolveAxis_empty]⟩
    · obtain ⟨x, hx⟩ := Option.isSome_iff_exists.mp (hs he)
      exact ⟨x, resolveAxis_hit _ _ _ _ x he hx⟩
  obtain ⟨rf, hra⟩ := hrok
  obtain ⟨hfv, hha⟩ := hhok
  obtain ⟨sf, hsa⟩ := hsok
  exact ⟨mkBeforeResult ctx rf hfv sf, Before_ok_of_axes opts ctx rf hfv sf hra hha hsa,
    mkBeforeResult_address ctx rf hfv sf⟩

/-- Witness for the amended C8: the malformed-address configuration against
the default registries assembles successfully with the address stored
verbatim. -/
theorem Before_assembly_never_fails_witness :
    (ctxMalformedAddress.router ≠ "" →
      (newCmdOptions.routers.lookup ctxMalformedAddress.router).isSome = true)
    ∧ (ctxMalformedAddress.handler ≠ "" →
      (newCmdOptions.handlers.lookup ctxMalformedAddress.handler).isSome = true)
    ∧ (ctxMalformedAddress.resolver ≠ "" →
      (newCmdOptions.resolvers.lookup ctxMalformedAddress.resolver).isSome = true)
    ∧ ∃ r : BeforeResult, Before newCmdOptions ctxMalformedAddress = Except.ok r
      ∧ r.server.address =
          (if ctxMalformedAddress.server_address = ""
           then ":8080" else ctxMalformedAddress.server_address) :=
  ⟨by decide, by decide, by decide,
   Before_assembly_never_fails newCmdOptions ctxMalformedAddress
     (by decide) (by decide) (by decide)⟩

/-- C9: whenever `Before` succeeds, the constructed server is bound to the
flag's value when it is non-empty and to the variable's initial value
`":8080"` when the flag value is empty. -/
theorem Before_server_address_default (opts : Options) (ctx : Context) (r : BeforeResult)
    (hok : Before opts ctx = Except.ok r) :
    r.server.address = if ctx.server_address = "" then ":8080" else ctx.server_address := by
  obtain ⟨rf, hfv, sf, _, _, _, hr⟩ := Before_ok_inversion opts ctx r hok
  subst hr
  exact mkBeforeResult_address ctx rf hfv sf

/-- Witness for C9: the all-empty configuration — the server is bound
to `":8080"`. -/
theorem Before_server_address_default_witness :
    Before newCmdOptions ctxEmptyAll =
      Except.ok (mkBeforeResult ctxEmptyAll RouterFactory.registryNewRouter
        HandlerFactory.rpcNewHandler ResolverFactory.vpathNewResolver)
    ∧ (mkBeforeResult ctxEmptyAll RouterFactory.registryNewRouter
        HandlerFactory.rpcNewHandler ResolverFactory.vpathNewResolver).server.address =
      (if ctxEmptyAll.server_address = "" then ":8080" else ctxEmptyAll.server_address) :=
  ⟨rfl,
   Before_server_address_default newCmdOptions ctxEmptyAll
     (mkBeforeResult ctxEmptyAll RouterFactory.registryNewRouter
       HandlerFactory.rpcNewHandler ResolverFactory.vpathNewResolver) rfl⟩

/-- C10: under the default registries, the recognized kind names are exactly
routers `{registry, static}`, resolvers `{grpc, host, path, vpath}`, handlers
`{api, event, http, rpc, web}`; lookups inside these sets succeed, and every
non-empty kind string outside them is a fatal configuration error on its
axis. -/
theorem default_registries_recognized_kinds (s : String) :
    ((DefaultRouters.lookup s).isSome = true ↔ s = "registry" ∨ s = "static")
    ∧ ((DefaultResolvers.lookup s).isSome = true ↔
        s = "grpc" ∨ s = "host" ∨ s = "path" ∨ s = "vpath")
    ∧ ((DefaultHandlers.lookup s).isSome = true ↔
        s = "api" ∨ s = "event" ∨ s = "http" ∨ s = "rpc" ∨ s = "web")
    ∧ (s ≠ "" → DefaultRouters.lookup s = none →
        Before newCmdOptions { ctxDefault with router := s } =
          Except.error (Fatal.routerNotFound s))
    ∧ (s ≠ "" → DefaultHandlers.lookup s = none →
        Before newCmdOptions { ctxDefault with handler := s } =
          Except.error (Fatal.handlerNotFound s))
    ∧ (s ≠ "" → DefaultResolvers.lookup s = none →
        Before newCmdOptions { ctxDefault with resolver := s } =
          Except.error (Fatal.resolverNotFound s)) := by
  refine ⟨?_, ?_, ?_, ?_, ?_, ?_⟩
  · by_cases h1 : s = "registry"
    · subst h1; decide
    · by_cases h2 : s = "static"
      · subst h2; decide
      · have hl : DefaultRouters.lookup s = none := by
          simp [DefaultRouters, List.lookup, beq_false_of_ne h1, beq_false_of_ne h2]
        simp [hl, h1, h2]
  · by_cases h1 : s = "grpc"
    · subst h1; decide
    · by_cases h2 : s = "host"
      · subst h2; decide
      · by_cases h3 : s = "path"
        · subst h3; decide
        · by_cases h4 : s = "vpath"
          · subst h4; decide
          · have hl : DefaultResolvers.lookup s = none := by
              simp [DefaultResolvers, List.lookup, beq_false_of_ne h1, beq_false_of_ne h2,
                beq_false_of_ne h3, beq_false_of_ne h4]
            simp [hl, h1, h2, h3, h4]
  · by_cases h1 : s = "api"
    · subst h1; decide
    · by_cases h2 : s = "event"
      · subst h2; decide
      · by_cases h3 : s = "http"
        · subst h3; decide
        · by_cases h4 : s = "rpc"
          · subst h4; decide
          · by_cases h5 : s = "web"
            · subst h5; decide
            · have hl : DefaultHandlers.lookup s = none := by
                simp [DefaultHandlers, List.lookup, beq_false_of_ne h1, beq_false_of_ne h2,
                  beq_false_of_ne h3, beq_false_of_ne h4, beq_false_of_ne h5]
              simp [hl, h1, h2, h3, h4, h5]
  · intro hne hnone
    have hne' : ({ ctxDefault with router := s } : Context).router ≠ "" := hne
    have hnone' : newCmdOptions.routers.lookup
        ({ ctxDefault with router := s } : Context).router = none := hnone
    unfold Before
    rw [resolveAxis_miss _ _ _ _ hne' hnone']
  · intro hne hnone
    have hne' : ({ ctxDefault with handler := s } : Context).handler ≠ "" := hne
    have hnone' : newCmdOptions.handlers.lookup
        ({ ctxDefault with handler := s } : Context).handler = none := hnone
    have h1 : resolveAxis newCmdOptions.routers
        ({ ctxDefault with handler := s } : Context).router
        RouterFactory.registryNewRouter Fatal.routerNotFound =
        Except.ok RouterFactory.registryNewRouter := rfl
    unfold Before
    rw [h1, resolveAxis_miss _ _ _ _ hne' hnone']
  · intro hne hnone
    have hne' : ({ ctxDefault with resolver := s } : Context).resolver ≠ "" := hne
    have hnone' : newCmdOptions.resolvers.lookup
        ({ ctxDefault with resolver := s } : Context).resolver = none := hnone
    have h1 : resolveAxis newCmdOptions.routers
        ({ ctxDefault with resolver := s } : Context).router
        RouterFactory.registryNewRouter Fatal.routerNotFound =
        Except.ok RouterFactory.registryNewRouter := rfl
    have h2 : resolveAxis newCmdOptions.handlers
        ({ ctxDefault with resolver := s } : Context).handler
        HandlerFactory.rpcNewHandler Fatal.handlerNotFound =
        Except.ok HandlerFactory.rpcNewHandler := rfl
    unfold Before
    rw [h1, h2, resolveAxis_miss _ _ _ _ hne' hnone']

/-- Witness for C10 at the unknown kind `"doesnotexist"` on the router
axis. -/
theorem default_registries_recognized_kinds_witness :
    ("doesnotexist" ≠ "")
    ∧ DefaultRouters.lookup "doesnotexist" = none
    ∧ Before newCmdOptions { ctxDefault with router := "doesnotexist" } =
        Except.error (Fatal.routerNotFound "doesnotexist") :=
  ⟨by decide, by decide,
   (default_registries_recognized_kinds "doesnotexist").2.2.2.1 (by decide) (by decide)⟩

end GoMicroApi
